import Mathlib

set_option maxRecDepth 100000
set_option maxHeartbeats 40000000

/-! Verification of the SC6109 CoW-Protocol order-signing scripts
(`testDev/test1.py` and `testDev/tryTx.py`).

The development shallowly embeds the hashing and signing pipeline of the scripts:
bytes are `List Nat` (each entry a byte value), the Keccak-256 primitive of
`eth_utils.keccak` / `Web3.keccak` is implemented concretely, the EIP-712
machinery of `eth_account.messages.encode_typed_data` is embedded over the
flat schemas the scripts use, and the ECDSA signer (`Account._sign_hash`,
deterministic per RFC 6979) is a function parameter from 32-byte hashes to
65-byte signatures.
-/

/-! Section: Keccak-256 primitive
The byte-exact Keccak-256 of `eth_utils.keccak` / `Web3.keccak`: rate 136
bytes, original Keccak multi-rate padding (`0x01 \u2026 0x80`).  The 25-lane
64-bit state is packed into a single `Nat` (lane `i` occupies bits
`64*i .. 64*i+63`), and the \u03b8/\u03c1/\u03c0/\u03c7 steps are lane-parallel bit
operations on that packed integer. -/

/-- Constant `2 ^ 64 - 1`. -/
def mask64 : Nat := 18446744073709551615

/-- Constant `2 ^ 1600 - 1`, the full 25-lane state mask. -/
def mask1600 : Nat := 44462416477094044620016814065517364315819234512137839319418223093753683069769152238984782576173969417485953521141049383745107056455283979316385016701612810119562585078620415976730705698345087039035930761275083827265405596065418173652685035788898113991627042329246850314029877161622487411877779578892097029690461532001915311366862468942148892205997883828265721290296220249202674740669814705818564765009960300389641843321936008416473775144511929246788246559538970957296160626364645375

/-- Constant `2 ^ 320 - 1`: one 320-bit row of five lanes. -/
def rowMask : Nat := 2135987035920910082395021706169552114602704522356652769947041607822219725780640550022962086936575

/-- Constant `1 + 2^320 + 2^640 + 2^960 + 2^1280`: replicates a row into all five rows. -/
def repRow : Nat := 20815864389328798163850480654728171077230524494533409610638224700807216119346720596024478883464658114998854627907642368965155007684957806043137408218881509432305471967469207117648832314389049115767584763633806249732742419165253485721200088004732763816076746947597445338784090465624812580354338229053547305749812462399080710418383320116099357515530159338092372165022113882598552585109505

/-- Constant `1 + 2^64 + 2^128 + 2^192 + 2^256`: replicates a lane into all five lanes of a row. -/
def repLane5 : Nat := 115792089237316195429848086744074588617446056455769168919041760803882641915905

/-- Mask for bits 1..63 of every lane of a row (`0xFF..FE * repLane5`) -/
def hiLaneRep : Nat := 2135987035920910082279229616932235919172856435612578181329595551366450556861598789219079445020670

/-- Mask for lanes 0..3 of every row (`(2^256 - 1) * repRow`) -/
def low4Rows : Nat := 2410312426921032588580116606028314112912093247945688951359675039065257391591782384804695695309183327613063691806363279927032572074703371994216923497114138640267188499440101785696696056836406159358187414869917787238511306067997255079573341536398835395060775440921332632256934903316937848152096980850022481964340047895413805285902563383969682371773532666868784264791383019771756088481141393119659206556348991130447944655005289194038893295315092015879740743196082175

/-- Mask for lane 0 of every row (`mask64 * repRow`) -/
def lane0Rows : Nat := 383984923062992702172291374378977192412120834148060703017915148707542585782379830787838081550328271359122218970064215285493743995280416474309527789870998878478296208252710326015353014563924288363930522622494233113373584547867282047167850416526239469055022854077824835153770985533468795234577412717093578124646656273895455674201336353186428705606154258848307881501182630866628355153859312798140739224600575

/-- Mask for lanes 0..2 of every row (`(2^192 - 1) * repRow`) -/
def low3Rows : Nat := 130663298481829608781738534421774961030200182945768642515205630320092961985969085384781322447306749580111228992116462632252118314950229205884042262061169512776070049499073159318934242913651902944507210374647698345343101788482530588913847655932709855710262970314506324141159093763532332550072737272715060714112321875009485228565607049888589720245614305714904636934624844733975308720715224852005263540536742030285872766905147738558552182909566975

/-- Mask for lanes 0..1 of every row (`(2^128 - 1) * repRow`) -/
def low2Rows : Nat := 7083271603906078757501937199839970337216226208362695246109084771478293278410441513258543870365905585596436739092320185917914863473176565265676098403011402397968561314353519466580290284866543944307735263844489097963250371471904341135238294985169007708229726482536872086687902626615000888056847923976457085562278273738408124092493435844402571782141701537251794938678380453462531987071923542172426885897668828784032639170379775

/-- Constant `2 ^ 64`. -/
def pow2_64 : Nat := 18446744073709551616

def rotl64 (x n : Nat) : Nat := ((x <<< n) % pow2_64) ||| (x >>> (64 - n))

def keccakRC : List Nat :=
  [1, 32898, 9223372036854808714,
   9223372039002292224, 32907, 2147483649,
   9223372039002292353, 9223372036854808585, 138,
   136, 2147516425, 2147483658,
   2147516555, 9223372036854775947, 9223372036854808713,
   9223372036854808579, 9223372036854808578, 9223372036854775936,
   32778, 9223372039002259466, 9223372039002292353,
   9223372036854808704, 2147483649, 9223372039002292232]

/-- Source lane of each target lane under the \u03c1/\u03c0 permutation. -/
def rhoSrc : List Nat := [0,6,12,18,24,3,9,10,16,22,1,7,13,19,20,4,5,11,17,23,2,8,14,15,21]

/-- Rotation amount of each target lane under the \u03c1/\u03c0 permutation. -/
def rhoRot : List Nat := [0,44,43,21,14,28,20,3,45,61,1,6,25,8,18,27,36,10,15,56,62,55,39,41,2]

/-- The \u03b8 step on the packed state. -/
def theta (S : Nat) : Nat :=
  let C := (S ^^^ (S >>> 320) ^^^ (S >>> 640) ^^^ (S >>> 960) ^^^ (S >>> 1280)) &&& rowMask
  let P := ((C >>> 256) ||| (C <<< 64)) &&& rowMask
  let R := ((C >>> 64) ||| (C <<< 256)) &&& rowMask
  let Q := ((R <<< 1) &&& hiLaneRep) ||| ((R >>> 63) &&& repLane5)
  S ^^^ ((P ^^^ Q) * repRow)

/-- The \u03c1 and \u03c0 steps on the packed state. -/
def rhoPi (S : Nat) : Nat :=
  (List.range 25).foldl
    (fun acc t =>
      acc ||| (rotl64 ((S >>> (64 * rhoSrc.getD t 0)) &&& mask64) (rhoRot.getD t 0) <<< (64 * t)))
    0

/-- The \u03c7 step on the packed state. -/
def chi (B : Nat) : Nat :=
  let T1 := ((B >>> 64) &&& low4Rows) ||| ((B &&& lane0Rows) <<< 256)
  let T2 := ((B >>> 128) &&& low3Rows) ||| ((B &&& low2Rows) <<< 192)
  B ^^^ ((T1 ^^^ mask1600) &&& T2)

def keccakRound (S : Nat) (rc : Nat) : Nat := chi (rhoPi (theta S)) ^^^ rc

def keccakF (S : Nat) : Nat := keccakRC.foldl keccakRound S

/-- Packs a byte list little-endian into one integer (byte `i` at bits `8*i ..`). -/
def packBytesLE (bs : List Nat) : Nat := bs.foldr (fun b acc => b + 256 * acc) 0

def keccakPad (msg : List Nat) : List Nat :=
  let padLen := 136 - msg.length % 136
  if padLen == 1 then msg ++ [0x81]
  else msg ++ [0x01] ++ List.replicate (padLen - 2) 0 ++ [0x80]

def absorbBlock (S : Nat) (blk : List Nat) : Nat := keccakF (S ^^^ packBytesLE blk)

/-- The 136-byte blocks of a padded message. -/
def keccakBlocks (p : List Nat) : List (List Nat) :=
  (List.range (p.length / 136)).map fun i => (p.drop (136*i)).take 136

/-- Sponge absorption of a whole message. -/
def keccakAbsorb (msg : List Nat) : Nat :=
  (keccakBlocks (keccakPad msg)).foldl absorbBlock 0

/-- The 32-byte digest read little-endian from the final state. -/
def keccakExtract (S : Nat) : List Nat :=
  (List.range 32).map fun i => (S >>> (8 * i)) % 256

def keccak256 (msg : List Nat) : List Nat := keccakExtract (keccakAbsorb msg)

/-! Section: Byte/hex/string helpers mirroring the Python value representations -/

/-- UTF-8 bytes of a string; all strings in these scripts are ASCII, where
UTF-8 and code points coincide. -/
def asciiBytes (s : String) : List Nat := s.data.map Char.toNat

/-- Value of one hexadecimal digit character (both cases). -/
def hexVal (c : Char) : Nat :=
  if c.toNat ≥ 97 then c.toNat - 87
  else if c.toNat ≥ 65 then c.toNat - 55
  else c.toNat - 48

/-- Bytes of a `0x`-prefixed hex string (as `HexBytes(...)` / address parsing). -/
def hexToBytes (s : String) : List Nat :=
  let ds := (s.data.drop 2).map hexVal
  (List.range (ds.length / 2)).map fun i => 16 * ds.getD (2*i) 0 + ds.getD (2*i+1) 0

def hexDigitChar (n : Nat) : Char := Char.ofNat (if n < 10 then 48 + n else 87 + n)

/-- Bare lowercase hex encoding of a byte list (Python `bytes.hex()`). -/
def bytesToHex (bs : List Nat) : String :=
  ⟨bs.foldr (fun b acc => hexDigitChar (b / 16) :: hexDigitChar (b % 16) :: acc) []⟩

/-- Python `HexBytes.hex()` / `Web3.keccak(...).hex()`: hex encoding WITH a `0x` prefix. -/
def hexBytesHex (bs : List Nat) : String := "0x" ++ bytesToHex bs

/-- The checksummed address of `eth_utils.to_checksum_address` / `Web3.to_checksum_address` (EIP-55):
lowercase the hex digits, then uppercase every alphabetic digit whose
corresponding nibble of `keccak256(lowercaseHexDigits)` is at least 8. -/
def toChecksumAddress (s : String) : String :=
  let low := (s.data.drop 2).map fun c =>
    if 65 ≤ c.toNat ∧ c.toNat ≤ 70 then Char.ofNat (c.toNat + 32) else c
  let h := keccak256 (low.map Char.toNat)
  ⟨[Char.ofNat 48, Char.ofNat 120] ++ (List.range low.length).map fun i =>
    let c := low.getD i (Char.ofNat 48)
    let nib := (h.getD (i/2) 0 >>> (if i % 2 == 0 then 4 else 0)) % 16
    if 97 ≤ c.toNat ∧ nib ≥ 8 then Char.ofNat (c.toNat - 32) else c⟩

/-! Section: EIP-712 typed-data machinery (`eth_account.messages.encode_typed_data`)
restricted to the atomic field types occurring in the schemas of the scripts. -/

inductive FType where
  | faddress
  | fuint256
  | fuint32
  | fbytes32
  | fbool
  | fstring
deriving DecidableEq

def ftypeName : FType → String
  | .faddress => "address"
  | .fuint256 => "uint256"
  | .fuint32 => "uint32"
  | .fbytes32 => "bytes32"
  | .fbool => "bool"
  | .fstring => "string"

structure FieldDef where
  fname : String
  ftype : FType
deriving DecidableEq

/-- A Python value appearing in a typed-data value map: an `int`, a
`bytes`/`HexBytes` value, a `bool`, or a `str`. -/
inductive EVal where
  | num (n : Nat)
  | bytes (bs : List Nat)
  | boolV (b : Bool)
  | strV (s : String)
deriving DecidableEq

/-- Dictionary lookup: value maps are association lists keyed by field name. -/
def lookupVal (v : List (String × EVal)) (n : String) : Option EVal :=
  (v.find? fun p => p.1 == n).map Prod.snd

/-- Big-endian 32-byte encoding of a (non-negative) machine integer. -/
def be32 (n : Nat) : List Nat := (List.range 32).map fun i => n / 256 ^ (31 - i) % 256

/-- EIP-712 atomic encoding of one field value; `none` models the exception the
library raises on a type/value mismatch. -/
def encodeField : FType → EVal → Option (List Nat)
  | .faddress, .strV s => some (List.replicate 12 0 ++ hexToBytes s)
  | .fuint256, .num n => some (be32 n)
  | .fuint32, .num n => some (be32 n)
  | .fbytes32, .bytes bs => some (bs.take 32 ++ List.replicate (32 - bs.length) 0)
  | .fbool, .boolV b => some (List.replicate 31 0 ++ [if b then 1 else 0])
  | .fstring, .strV s => some (keccak256 (asciiBytes s))
  | _, _ => none

/-- Concatenated field encodings in schema order; the schema is authoritative:
only names declared in the schema are looked up, a missing field is `none`
(the raise in the library). -/
def encodeData (schema : List FieldDef) (v : List (String × EVal)) : Option (List Nat) :=
  schema.foldr
    (fun f acc =>
      match lookupVal v f.fname, acc with
      | some ev, some rest => (encodeField f.ftype ev).map (· ++ rest)
      | _, _ => none)
    (some [])

/-- Canonical type signature `"Name(type1 name1,type2 name2,...)"` (the
schemas of the scripts are flat so no referenced-type suffix arises). -/
def typeSig (tname : String) (schema : List FieldDef) : String :=
  tname ++ "(" ++
    String.intercalate "," (schema.map fun f => ftypeName f.ftype ++ " " ++ f.fname) ++ ")"

/-- EIP-712 `hashStruct(typeName, value) = keccak(typeHash ‖ encodeData(...))`. -/
def hashStruct (tname : String) (schema : List FieldDef) (v : List (String × EVal)) :
    Option (List Nat) :=
  (encodeData schema v).map fun enc =>
    keccak256 (keccak256 (asciiBytes (typeSig tname schema)) ++ enc)

/-- The eth_account `SignableMessage` record: `version = b"\x01"`, `header` the domain
separator, `body` the struct hash of the message. -/
structure SignableMessage where
  version : List Nat
  header : List Nat
  body : List Nat
deriving DecidableEq

/-- Function `encode_typed_data(full_message=...)`: hash the domain and the primary-type
message and package them; it does NOT return the final digest, only its parts. -/
def encodeTypedData (domainSchema : List FieldDef) (domainVal : List (String × EVal))
    (primName : String) (primSchema : List FieldDef) (msgVal : List (String × EVal)) :
    Option SignableMessage :=
  match hashStruct "EIP712Domain" domainSchema domainVal,
        hashStruct primName primSchema msgVal with
  | some dh, some mh => some ⟨[0x01], dh, mh⟩
  | _, _ => none

/-- The EIP-191 hash of a `SignableMessage`, i.e. the true typed-data digest
`keccak(0x19 ‖ 0x01 ‖ domainSeparator ‖ messageHash)` that
`Account.sign_message` would sign. -/
def eip191MessageHash (m : SignableMessage) : List Nat :=
  keccak256 (0x19 :: (m.version ++ m.header ++ m.body))

/-- The Digest Composer of the spec: `hash(0x19 ‖ 0x01 ‖ domainSeparator ‖ messageHash)`. -/
def fullTypedDataDigest (domSep msgHash : List Nat) : List Nat :=
  keccak256 ([0x19, 0x01] ++ domSep ++ msgHash)

/-! Section: `testDev/test1.py`: pinned domain, order and signing pipeline -/

def PRIVATE_KEY : String :=
  "542667984ecd2ef899fca4e6e10fc28fcfb964c47d820009d1c1e45451e0523f"

def test1DomainSchema : List FieldDef :=
  [⟨"name", .fstring⟩, ⟨"version", .fstring⟩, ⟨"chainId", .fuint256⟩,
   ⟨"verifyingContract", .faddress⟩]

def test1Domain : List (String × EVal) :=
  [("name", .strV "Gnosis Protocol"),
   ("version", .strV "v2"),
   ("chainId", .num 11155111),
   ("verifyingContract", .strV "0x9008D19f58AAbD9eD0D60971565AA8510560ab41")]

def orderSchema : List FieldDef :=
  [⟨"sellToken", .faddress⟩, ⟨"buyToken", .faddress⟩, ⟨"sellAmount", .fuint256⟩,
   ⟨"buyAmount", .fuint256⟩, ⟨"validTo", .fuint32⟩, ⟨"appData", .fbytes32⟩,
   ⟨"feeAmount", .fuint256⟩, ⟨"kind", .fbytes32⟩, ⟨"partiallyFillable", .fbool⟩,
   ⟨"sellTokenBalance", .fbytes32⟩, ⟨"buyTokenBalance", .fbytes32⟩,
   ⟨"receiver", .faddress⟩]

def test1Order : List (String × EVal) :=
  [("sellToken", .strV (toChecksumAddress "0xfff9976782d46cc05630d1f6ebab18b2324d6b14")),
   ("buyToken", .strV (toChecksumAddress "0x0625afb445c3b6b7b929342a04a22599fd5dbb59")),
   ("sellAmount", .num 473107794665489160),
   ("buyAmount", .num 164428962043613737416),
   ("validTo", .num 1746436866),
   ("appData", .bytes (hexToBytes "0xc85ef7d79691fe79573b1a7064c19c1a9819ebdbd1faaab1a8ec92344438aaf4")),
   ("feeAmount", .num 0),
   ("kind", .bytes (keccak256 (asciiBytes "sell"))),
   ("partiallyFillable", .boolV false),
   ("sellTokenBalance", .bytes (keccak256 (asciiBytes "erc20"))),
   ("buyTokenBalance", .bytes (keccak256 (asciiBytes "erc20"))),
   ("receiver", .strV (toChecksumAddress "0x2f8A528EB0De3b43fD9Eb6f23D55C8D95fb7AF98"))]

/-- Line `signable_message = encode_typed_data(full_message=typed_data)` of test1.py. -/
def test1SignableMessage : Option SignableMessage :=
  encodeTypedData test1DomainSchema test1Domain "Order" orderSchema test1Order

/-- Line `digest = HexBytes(signable_message.body)` of test1.py: the script binds
`digest` to the `body` component of the `SignableMessage`. -/
def test1Digest : List Nat := (test1SignableMessage.map SignableMessage.body).getD []

/-- The 28-character Ethereum signed-message header `"\x19Ethereum Signed Message:\n32"`. -/
def ethSignHeaderStr : String := "\x19Ethereum Signed Message:\n32"

/-- Line `eth_sign_message = b"\x19Ethereum Signed Message:\n32" + digest`. -/
def ethMessageBytes (digest : List Nat) : List Nat := asciiBytes ethSignHeaderStr ++ digest

/-- Line `eth_message_hash = keccak(eth_sign_message)`: the ethSign wrap of a digest. -/
def ethMessageHash (digest : List Nat) : List Nat := keccak256 (ethMessageBytes digest)

def test1EthMessageHash : List Nat := ethMessageHash test1Digest

/-- Line `signed = Account._sign_hash(eth_message_hash, private_key=PRIVATE_KEY)` with
the deterministic (RFC-6979) signer abstracted as a function of the key and the
32-byte hash; `test1Signature` is `signed.signature` (65 raw bytes). -/
def test1Signature (signHash : String → List Nat → List Nat) : List Nat :=
  signHash PRIVATE_KEY test1EthMessageHash


/-! Section: `testDev/tryTx.py`: quote → order → sign → submit pipeline -/

def WETH : String := toChecksumAddress "0xfff9976782d46cc05630d1f6ebab18b2324d6b14"

def COW : String := toChecksumAddress "0x0625aFB445C3B6B7B929342a04A22599fd5dBB59"

def COWSWAP_CONTRACT : String := toChecksumAddress "0x9008d19f58aabd9ed0d60971565aa8510560ab41"

def ADDRESS : String := toChecksumAddress "0x2f8A528EB0De3b43fD9Eb6f23D55C8D95fb7AF98"

/-- The parsed quote-service response as `construct_order` reads it: the
`"quote"` sub-object fields plus the top-level `"from"` field (`fromAddr`
here, `from` being a keyword).  CoW amounts arrive as decimal strings and
`kind` / the balance locations as short ASCII tags. -/
structure QuoteData where
  sellToken : String
  buyToken : String
  sellAmount : String
  buyAmount : String
  validTo : Nat
  feeAmount : String
  kind : String
  partiallyFillable : Bool
  sellTokenBalance : String
  buyTokenBalance : String
  receiver : String
  signingScheme : String
  fromAddr : String
deriving DecidableEq

/-- Line `app_data_json = json.dumps({"version": "0.9.0", "metadata": {}})`:
the default `json.dumps` separators of Python put a space after each `:` and `,`. -/
def app_data_json : String := "\x7b\"version\": \"0.9.0\", \"metadata\": \x7b\x7d\x7d"

/-- Line `app_data_hash = Web3.keccak(text=app_data_json).hex()`; `Web3.keccak`
returns `HexBytes`, whose `.hex()` is already `0x`-prefixed. -/
def app_data_hash : String := hexBytesHex (keccak256 (asciiBytes app_data_json))

/-- The canonical no-whitespace JSON encoding of the same metadata object,
per the spec rule "stable key order, no extraneous whitespace". -/
def appDataJsonNoSpace : String := "\x7b\"version\":\"0.9.0\",\"metadata\":\x7b\x7d\x7d"

/-- The order dictionary as `construct_order` builds it. -/
structure OrderRec where
  sellToken : String
  buyToken : String
  sellAmount : String
  buyAmount : String
  validTo : Nat
  appData : String
  feeAmount : String
  kind : String
  partiallyFillable : Bool
  sellTokenBalance : String
  buyTokenBalance : String
  receiver : String
  fromAddr : String
  signingScheme : String
  appDataHash : String
deriving DecidableEq

/-- Function `construct_order(quote_data)`: copies the quote fields verbatim, sets
`appData` to `"0x" + app_data_hash`, adds the extra `receiver`, `from`,
`signingScheme` fields, and repeats the same string under `appDataHash`. -/
def construct_order (q : QuoteData) : OrderRec :=
  { sellToken := q.sellToken
    buyToken := q.buyToken
    sellAmount := q.sellAmount
    buyAmount := q.buyAmount
    validTo := q.validTo
    appData := "0x" ++ app_data_hash
    feeAmount := q.feeAmount
    kind := q.kind
    partiallyFillable := q.partiallyFillable
    sellTokenBalance := q.sellTokenBalance
    buyTokenBalance := q.buyTokenBalance
    receiver := q.receiver
    fromAddr := q.fromAddr
    signingScheme := q.signingScheme
    appDataHash := "0x" ++ app_data_hash }

/-- The domain dictionary of `sign_order` (same fields as test1.py, with the
contract address produced by `Web3.to_checksum_address`). -/
def tryTxDomain : List (String × EVal) :=
  [("name", .strV "Gnosis Protocol"),
   ("version", .strV "v2"),
   ("chainId", .num 11155111),
   ("verifyingContract", .strV COWSWAP_CONTRACT)]

/-- Function `sign_order(order)` over a typed-data value map: computes
`encode_typed_data(...)`, binds `digest` to its `body`, wraps it with the
ethSign prefix, hashes, signs with `PRIVATE_KEY`, and returns
`signed.signature.hex()` (a `0x`-prefixed hex string). -/
def sign_order (signHash : String → List Nat → List Nat)
    (msgVal : List (String × EVal)) : Option String :=
  (encodeTypedData test1DomainSchema tryTxDomain "Order" orderSchema msgVal).map fun m =>
    hexBytesHex (signHash PRIVATE_KEY (ethMessageHash m.body))

/-- The `signature` field of the payload `submit_order` posts:
`order["signature"] = "0x" + signature`, where `signature` is the already-`0x`-prefixed `signed.signature.hex()` of the 65 raw bytes returned by `sign_order`. -/
def submittedSignature (sig : List Nat) : String := "0x" ++ hexBytesHex sig

/-- The pipeline steps of `main()`. -/
inductive PipelineStep where
  | quoteStep
  | buildStep
  | signStep
  | submitStep
deriving DecidableEq

/-- The sequence of steps `main()` attempts, as a function of the quote
outcome (`None` on non-200) and the signing outcome (`except ValueError`
catches a raise): quote always runs; on `None` main returns; otherwise the
order is built and signing attempted; an error returns before submission;
otherwise `submit_order` runs. -/
def mainTrace (qr : Option QuoteData) (signResult : OrderRec → Except String String) :
    List PipelineStep :=
  match qr with
  | none => [.quoteStep]
  | some q =>
    match signResult (construct_order q) with
    | .error _ => [.quoteStep, .buildStep, .signStep]
    | .ok _ => [.quoteStep, .buildStep, .signStep, .submitStep]

/-! Section: Signing-scheme adapter -/

/-- The ethSign signing value for an arbitrary hash function:
`hash(prefixBytes ‖ digest)`. -/
def ethSignValueWith (hash : List Nat → List Nat) (d : List Nat) : List Nat :=
  hash (asciiBytes ethSignHeaderStr ++ d)

/-- Modelled from the spec: the `eip712` branch of the Signing-Scheme Adapter,
which the scripts do not implement (they hardcode the ethSign wrap); per the
spec, under `eip712` "the value to sign is `digest` unchanged". -/
def eip712SigningValue (d : List Nat) : List Nat := d

/-! Section: Fixtures used by witnesses and counterexamples -/

/-- A deterministic signer stub returning 65 zero bytes. -/
def zeroSigner : String → List Nat → List Nat := fun _ _ => List.replicate 65 0

/-- A hash function whose first output byte always differs from byte 28 of the input, so it can have no 28-byte-shifted fixed point. -/
def offsetHash (l : List Nat) : List Nat := ((l.getD 28 0 + 1) % 256) :: l.drop 29

/-- A concrete quote fixture shaped like a CoW Sepolia quote response. -/
def quoteFixture : QuoteData :=
  { sellToken := WETH
    buyToken := COW
    sellAmount := "100000000000000000"
    buyAmount := "164428962043613737416"
    validTo := 1746436866
    feeAmount := "0"
    kind := "sell"
    partiallyFillable := true
    sellTokenBalance := "erc20"
    buyTokenBalance := "erc20"
    receiver := ADDRESS
    signingScheme := "eip712"
    fromAddr := "0x2f8a528eb0de3b43fd9eb6f23d55c8d95fb7af98" }

/-- The test1 order value map extended with the extra keys `construct_order`
adds, none of which occur in the Order schema. -/
def test1OrderExtra : List (String × EVal) :=
  test1Order ++
    [("from", .strV ADDRESS), ("signingScheme", .strV "eip712"),
     ("appDataHash", .strV ("0x" ++ app_data_hash))]

/-! Section: Precomputed evaluation constants
Literal padded blocks, intermediate sponge states, and digests used to stage
multi-block Keccak computations (each staged step absorbs one block). -/

/-- First padded block of the Order type-signature string. -/
def ots1 : List Nat := [79,114,100,101,114,40,97,100,100,114,101,115,115,32,115,101,108,108,84,111,107,101,110,44,97,100,100,114,101,115,115,32,98,117,121,84,111,107,101,110,44,117,105,110,116,50,53,54,32,115,101,108,108,65,109,111,117,110,116,44,117,105,110,116,50,53,54,32,98,117,121,65,109,111,117,110,116,44,117,105,110,116,51,50,32,118,97,108,105,100,84,111,44,98,121,116,101,115,51,50,32,97,112,112,68,97,116,97,44,117,105,110,116,50,53,54,32,102,101,101,65,109,111,117,110,116,44,98,121,116,101,115,51,50,32,107]

/-- Second padded block of the Order type-signature string. -/
def ots2 : List Nat := [105,110,100,44,98,111,111,108,32,112,97,114,116,105,97,108,108,121,70,105,108,108,97,98,108,101,44,98,121,116,101,115,51,50,32,115,101,108,108,84,111,107,101,110,66,97,108,97,110,99,101,44,98,121,116,101,115,51,50,32,98,117,121,84,111,107,101,110,66,97,108,97,110,99,101,44,97,100,100,114,101,115,115,32,114,101,99,101,105,118,101,114,41,1,0,0,0,0,0,0,0,0,0,0,0,0,0,0,0,0,0,0,0,0,0,0,0,0,0,0,0,0,0,0,0,0,0,0,0,0,0,0,0,0,0,128]

/-- Sponge state after absorbing `ots1`. -/
def otsS1 : Nat := 24508552506476865877392709172144347847650796597763173062276425307559466872866756067947366939809126148766054789711263152392777328321936871950422391419098674698374268386918398088411981026826877182851357449975606624389828769361082716070999653634938088781401786911201715365666906054303602827590013275103646110545708316601762338546000676693032644365898280173798525694840693997134715479008546919505268812209420269536762392653589051736584317030170415035336145170495922793941949527476044021

/-- Sponge state after absorbing `ots2`. -/
def otsS2 : Nat := 985937565041374281871485439954040760087057642150485384659719921191034509341806125062668764054353991997404420107128640663916070612653775076572735260963577419328262037956583041516580529662985710005974640997770219570075058237148507146853117284041478015146835959205648768031576116331310834670271536025717779098277850517693324595522411704300304771576128641586678585601089871957081479150000915047513618928006644340218592902007058423502047038411757835159661007322691275316149113760897697

/-- Hash `keccak256` of the Order type signature (the Order type hash). -/
def orderTypeHashB : List Nat := [161,218,17,122,82,3,223,106,161,155,82,100,239,70,54,169,245,128,216,240,173,24,189,224,192,92,61,111,82,190,226,188]

/-- First padded block of the EIP712Domain struct-hash input. -/
def dsi1 : List Nat := [139,115,195,198,155,184,254,61,81,46,204,76,247,89,204,121,35,159,123,23,155,15,250,202,169,167,93,82,43,57,64,15,108,133,192,51,126,186,22,97,50,127,148,243,191,70,200,167,249,49,26,86,63,77,92,148,131,98,86,127,93,142,214,12,249,68,107,142,147,125,134,240,188,135,202,199,57,35,73,22,146,177,35,202,95,135,97,144,132,148,112,55,88,32,106,223,0,0,0,0,0,0,0,0,0,0,0,0,0,0,0,0,0,0,0,0,0,0,0,0,0,0,0,0,0,170,54,167,0,0,0,0,0,0,0,0]

/-- Second padded block of the EIP712Domain struct-hash input. -/
def dsi2 : List Nat := [0,0,0,0,144,8,209,159,88,170,189,158,208,214,9,113,86,90,168,81,5,96,171,65,1,0,0,0,0,0,0,0,0,0,0,0,0,0,0,0,0,0,0,0,0,0,0,0,0,0,0,0,0,0,0,0,0,0,0,0,0,0,0,0,0,0,0,0,0,0,0,0,0,0,0,0,0,0,0,0,0,0,0,0,0,0,0,0,0,0,0,0,0,0,0,0,0,0,0,0,0,0,0,0,0,0,0,0,0,0,0,0,0,0,0,0,0,0,0,0,0,0,0,0,0,0,0,0,0,0,0,0,0,0,0,128]

/-- Sponge state after absorbing `dsi1`. -/
def dsiS1 : Nat := 31430424115441195956965880751783608200374435056320346937977929896069849760804766208147857881031936228641456513743361618687312433591694882681977797838197507133241534434249634518134368515958823787682984884525471070533829821441098170726057016681612222696781464266866340388705193131698426590703653119109072010012305200546400612251607914394787813101283665945655613108546183659774435719564495419128116256438368304876549135181017142605743116727973544993640602951118651611571523823715174336

/-- Sponge state after absorbing `dsi2`. -/
def dsiS2 : Nat := 8822146907240768188360943565737316435675146635898254212251364169801488386564014052346807147417944933982615519156281569136383106463126466702911358092573706276979736795935809753965100612439255326966296694614615512603370483087683562174911668414086343809611720317539761737897701188703567713577910078419028545066622531121497337727265714118347305496768101132911580370099907337693345809967231363257296937742874823316433243010795882288897298685756534223722359447986566221612478570885017306

/-- Hash `keccak256` of the EIP712Domain type signature. -/
def domTypeHashB : List Nat := [139,115,195,198,155,184,254,61,81,46,204,76,247,89,204,121,35,159,123,23,155,15,250,202,169,167,93,82,43,57,64,15]

/-- Encoding `encodeData` of the test1 domain value (128 bytes). -/
def domEncB : List Nat := [108,133,192,51,126,186,22,97,50,127,148,243,191,70,200,167,249,49,26,86,63,77,92,148,131,98,86,127,93,142,214,12,249,68,107,142,147,125,134,240,188,135,202,199,57,35,73,22,146,177,35,202,95,135,97,144,132,148,112,55,88,32,106,223,0,0,0,0,0,0,0,0,0,0,0,0,0,0,0,0,0,0,0,0,0,0,0,0,0,0,0,0,0,170,54,167,0,0,0,0,0,0,0,0,0,0,0,0,144,8,209,159,88,170,189,158,208,214,9,113,86,90,168,81,5,96,171,65]

/-- The domain separator `hashStruct(EIP712Domain, domain)`. -/
def domSepB : List Nat := [218,238,55,139,208,235,48,221,244,121,39,42,204,249,23,97,230,151,188,0,224,103,162,104,249,95,29,39,50,237,35,11]

/-- Padded block 1 of the Order struct-hash input. -/
def osi1 : List Nat := [161,218,17,122,82,3,223,106,161,155,82,100,239,70,54,169,245,128,216,240,173,24,189,224,192,92,61,111,82,190,226,188,0,0,0,0,0,0,0,0,0,0,0,0,255,249,151,103,130,212,108,192,86,48,209,246,235,171,24,178,50,77,107,20,0,0,0,0,0,0,0,0,0,0,0,0,6,37,175,180,69,195,182,183,185,41,52,42,4,162,37,153,253,93,187,89,0,0,0,0,0,0,0,0,0,0,0,0,0,0,0,0,0,0,0,0,0,0,0,0,6,144,209,8,89,129,67,8,0,0,0,0,0,0,0,0]

/-- Padded block 2 of the Order struct-hash input. -/
def osi2 : List Nat := [0,0,0,0,0,0,0,0,0,0,0,0,0,0,0,8,233,233,5,203,243,200,241,200,0,0,0,0,0,0,0,0,0,0,0,0,0,0,0,0,0,0,0,0,0,0,0,0,0,0,0,0,104,24,131,2,200,94,247,215,150,145,254,121,87,59,26,112,100,193,156,26,152,25,235,219,209,250,170,177,168,236,146,52,68,56,170,244,0,0,0,0,0,0,0,0,0,0,0,0,0,0,0,0,0,0,0,0,0,0,0,0,0,0,0,0,0,0,0,0,243,178,119,114,139,63,238,116,148,129,235,62,11,59,72,152]

/-- Padded block 3 of the Order struct-hash input. -/
def osi3 : List Nat := [13,187,171,120,101,143,196,25,2,92,177,110,238,52,103,117,0,0,0,0,0,0,0,0,0,0,0,0,0,0,0,0,0,0,0,0,0,0,0,0,0,0,0,0,0,0,0,0,90,40,233,54,59,185,66,182,57,39,0,98,170,107,178,149,244,52,188,223,196,44,151,38,123,240,3,242,114,6,13,201,90,40,233,54,59,185,66,182,57,39,0,98,170,107,178,149,244,52,188,223,196,44,151,38,123,240,3,242,114,6,13,201,0,0,0,0,0,0,0,0,0,0,0,0,47,138,82,142,176,222,59,67,253,158,182,242]

/-- Padded block 4 of the Order struct-hash input. -/
def osi4 : List Nat := [61,85,200,217,95,183,175,152,1,0,0,0,0,0,0,0,0,0,0,0,0,0,0,0,0,0,0,0,0,0,0,0,0,0,0,0,0,0,0,0,0,0,0,0,0,0,0,0,0,0,0,0,0,0,0,0,0,0,0,0,0,0,0,0,0,0,0,0,0,0,0,0,0,0,0,0,0,0,0,0,0,0,0,0,0,0,0,0,0,0,0,0,0,0,0,0,0,0,0,0,0,0,0,0,0,0,0,0,0,0,0,0,0,0,0,0,0,0,0,0,0,0,0,0,0,0,0,0,0,0,0,0,0,0,0,128]

/-- Sponge state after absorbing `osi1`. -/
def osiS1 : Nat := 30371592438736025456817475294714942656100719328278835892406264395114068444938328131244749767863198264321151184666274384354354764933429584433656806610349265144947592009403198118893215604151164615423428359130235225511479764030336921336803408963411513063080541431596850617220069945820688267495235830400552009629047463642777246785968708980635991004477781153290787660457204379472677500641944773916052504430529558602344158980186492471586057436439040320474659728364917125075589925464756640

/-- Sponge state after absorbing `osi2`. -/
def osiS2 : Nat := 10058302644892901594327889642488590815356519203561643546859628823899597202978831834698982422423038594492835775235470887227900103236046450130493218521826145250355902681559586834571161532699625059956508359858901665697048028271254291623863656596956157715650758821777007995066789376347946328234846433347882797620108629862644015528146187683000789608154749247553186383359201207236605136492912631604104802221075026972526454803218412039593449198844521550078627804808964992991686061652248933

/-- Sponge state after absorbing `osi3`. -/
def osiS3 : Nat := 41724905028757732847523831217515163515643281624214577678624328563660001940028116396212203878354701048098732788425485434046594620180405927202978996190491624144364462936944993226743585772001402122268397920607485652551068181639061717425276815654739628130720972199309232060219383565134289965733246647313304473080694344088442757005646075350516863901044875776560403095331830895335332041881718256623656357150531891519719930173211629233397901151199452000948898552782779252375472545111629188

/-- Sponge state after absorbing `osi4`. -/
def osiS4 : Nat := 34450314454552490933127468291056063680116621509945713948719007285570681967164614908681635807395417183395049206341868923386723600687563684221089099342989943788765066439261123231139042639962559304587586627550609820837303867672887790097899435021296419523111343977405252382595890511447535794759517490210649646121123948598668553577824723544942355156150115037944787548524109947315095127015655290880728739012765071642442244464292322418220108952311041328248585597808353843383633264249961297

/-- Encoding `encodeData` of the test1 order value (384 bytes). -/
def orderEncB : List Nat := [0,0,0,0,0,0,0,0,0,0,0,0,255,249,151,103,130,212,108,192,86,48,209,246,235,171,24,178,50,77,107,20,0,0,0,0,0,0,0,0,0,0,0,0,6,37,175,180,69,195,182,183,185,41,52,42,4,162,37,153,253,93,187,89,0,0,0,0,0,0,0,0,0,0,0,0,0,0,0,0,0,0,0,0,0,0,0,0,6,144,209,8,89,129,67,8,0,0,0,0,0,0,0,0,0,0,0,0,0,0,0,0,0,0,0,0,0,0,0,8,233,233,5,203,243,200,241,200,0,0,0,0,0,0,0,0,0,0,0,0,0,0,0,0,0,0,0,0,0,0,0,0,0,0,0,0,104,24,131,2,200,94,247,215,150,145,254,121,87,59,26,112,100,193,156,26,152,25,235,219,209,250,170,177,168,236,146,52,68,56,170,244,0,0,0,0,0,0,0,0,0,0,0,0,0,0,0,0,0,0,0,0,0,0,0,0,0,0,0,0,0,0,0,0,243,178,119,114,139,63,238,116,148,129,235,62,11,59,72,152,13,187,171,120,101,143,196,25,2,92,177,110,238,52,103,117,0,0,0,0,0,0,0,0,0,0,0,0,0,0,0,0,0,0,0,0,0,0,0,0,0,0,0,0,0,0,0,0,90,40,233,54,59,185,66,182,57,39,0,98,170,107,178,149,244,52,188,223,196,44,151,38,123,240,3,242,114,6,13,201,90,40,233,54,59,185,66,182,57,39,0,98,170,107,178,149,244,52,188,223,196,44,151,38,123,240,3,242,114,6,13,201,0,0,0,0,0,0,0,0,0,0,0,0,47,138,82,142,176,222,59,67,253,158,182,242,61,85,200,217,95,183,175,152]

/-- Value `hashStruct(Order, order)`: the message struct hash, which test1.py binds to `digest`. -/
def msgHashB : List Nat := [81,123,144,120,229,140,188,111,198,101,1,69,74,249,86,226,146,221,42,123,103,110,58,208,172,106,93,254,95,254,242,53]

/-- Hash `keccak256` of the ethSign-prefixed message struct hash (the value test1.py signs). -/
def ethMsgHashB : List Nat := [21,194,112,63,21,212,60,50,4,125,166,203,163,46,162,21,85,39,192,83,70,237,248,192,17,102,196,214,10,124,0,9]

/-- The genuine EIP-712 digest `keccak256(0x19 \u2016 0x01 \u2016 domainSeparator \u2016 messageHash)`. -/
def fullDigestB : List Nat := [184,11,102,162,6,112,105,127,22,64,205,151,121,141,50,27,207,73,45,249,213,41,153,87,8,221,175,226,219,157,113,120]

/-! Section: Staging lemmas for multi-block sponge evaluation -/

theorem keccakBlocks_nil : keccakBlocks [] = [] := rfl

theorem keccakBlocks_cons (b rest : List Nat) (hb : b.length = 136) :
    keccakBlocks (b ++ rest) = b :: keccakBlocks rest := by
  unfold keccakBlocks
  have hlen : (b ++ rest).length = rest.length + 136 := by
    rw [List.length_append, hb]; omega
  rw [hlen, Nat.add_div_right _ (by norm_num), List.range_succ_eq_map, List.map_cons]
  congr 1
  · rw [Nat.mul_zero, List.drop_zero, List.take_left' hb]
  · rw [List.map_map]
    apply List.map_congr_left
    intro i _
    simp only [Function.comp_apply]
    have h136 : Nat.succ i * 136 = 136 + 136 * i := by omega
    rw [Nat.mul_comm 136 (Nat.succ i), h136, ← List.drop_drop, List.drop_left' hb]

theorem keccakBlocks_single (b : List Nat) (hb : b.length = 136) : keccakBlocks b = [b] := by
  conv_lhs => rw [← List.append_nil b]
  rw [keccakBlocks_cons _ _ hb, keccakBlocks_nil]

theorem keccakAbsorb_eq (msg : List Nat) :
    keccakAbsorb msg = (keccakBlocks (keccakPad msg)).foldl absorbBlock 0 := rfl

theorem keccakAbsorb_two (msg b1 b2 : List Nat) (hpad : keccakPad msg = b1 ++ b2)
    (h1 : b1.length = 136) (h2 : b2.length = 136) :
    keccakAbsorb msg = absorbBlock (absorbBlock 0 b1) b2 := by
  have hb : keccakBlocks (keccakPad msg) = [b1, b2] := by
    rw [hpad, keccakBlocks_cons _ _ h1, keccakBlocks_single _ h2]
  rw [keccakAbsorb_eq, hb]
  exact Eq.trans (List.foldl_cons [b2] 0)
    (Eq.trans (List.foldl_cons [] (absorbBlock 0 b1)) List.foldl_nil)

theorem keccakAbsorb_four (msg b1 b2 b3 b4 : List Nat)
    (hpad : keccakPad msg = b1 ++ (b2 ++ (b3 ++ b4)))
    (h1 : b1.length = 136) (h2 : b2.length = 136) (h3 : b3.length = 136)
    (h4 : b4.length = 136) :
    keccakAbsorb msg = absorbBlock (absorbBlock (absorbBlock (absorbBlock 0 b1) b2) b3) b4 := by
  have hb : keccakBlocks (keccakPad msg) = [b1, b2, b3, b4] := by
    rw [hpad, keccakBlocks_cons _ _ h1, keccakBlocks_cons _ _ h2, keccakBlocks_cons _ _ h3,
      keccakBlocks_single _ h4]
  rw [keccakAbsorb_eq, hb]
  exact Eq.trans (List.foldl_cons [b2, b3, b4] 0)
    (Eq.trans (List.foldl_cons [b3, b4] (absorbBlock 0 b1))
      (Eq.trans (List.foldl_cons [b4] (absorbBlock (absorbBlock 0 b1) b2))
        (Eq.trans (List.foldl_cons [] (absorbBlock (absorbBlock (absorbBlock 0 b1) b2) b3))
          List.foldl_nil)))

/-! Section: Evaluation of the test1.py hashing pipeline -/

theorem keccak256_eq (msg : List Nat) :
    keccak256 msg = keccakExtract (keccakAbsorb msg) := rfl

theorem orderTypeHash_eval :
    keccak256 (asciiBytes (typeSig "Order" orderSchema)) = orderTypeHashB := by
  rw [keccak256_eq,
    keccakAbsorb_two (asciiBytes (typeSig "Order" orderSchema)) ots1 ots2
      (by decide) (by decide) (by decide),
    (by decide : absorbBlock 0 ots1 = otsS1), (by decide : absorbBlock otsS1 ots2 = otsS2)]
  decide

theorem domTypeHash_eval :
    keccak256 (asciiBytes (typeSig "EIP712Domain" test1DomainSchema)) = domTypeHashB := by
  decide

theorem domEnc_eval : encodeData test1DomainSchema test1Domain = some domEncB := by decide

theorem orderEnc_eval : encodeData orderSchema test1Order = some orderEncB := by decide

theorem domSepInput_eval : keccak256 (domTypeHashB ++ domEncB) = domSepB := by
  rw [keccak256_eq,
    keccakAbsorb_two (domTypeHashB ++ domEncB) dsi1 dsi2 (by decide) (by decide) (by decide),
    (by decide : absorbBlock 0 dsi1 = dsiS1), (by decide : absorbBlock dsiS1 dsi2 = dsiS2)]
  decide

theorem msgHashInput_eval : keccak256 (orderTypeHashB ++ orderEncB) = msgHashB := by
  rw [keccak256_eq,
    keccakAbsorb_four (orderTypeHashB ++ orderEncB) osi1 osi2 osi3 osi4
      (by decide) (by decide) (by decide) (by decide) (by decide),
    (by decide : absorbBlock 0 osi1 = osiS1), (by decide : absorbBlock osiS1 osi2 = osiS2),
    (by decide : absorbBlock osiS2 osi3 = osiS3), (by decide : absorbBlock osiS3 osi4 = osiS4)]
  decide

theorem hashStruct_domain_eval :
    hashStruct "EIP712Domain" test1DomainSchema test1Domain = some domSepB := by
  show (encodeData test1DomainSchema test1Domain).map
      (fun enc => keccak256 (keccak256 (asciiBytes (typeSig "EIP712Domain" test1DomainSchema)) ++ enc)) =
    some domSepB
  rw [domEnc_eval]
  show some (keccak256 (keccak256 (asciiBytes (typeSig "EIP712Domain" test1DomainSchema)) ++ domEncB)) =
    some domSepB
  rw [domTypeHash_eval, domSepInput_eval]

theorem hashStruct_order_eval :
    hashStruct "Order" orderSchema test1Order = some msgHashB := by
  show (encodeData orderSchema test1Order).map
      (fun enc => keccak256 (keccak256 (asciiBytes (typeSig "Order" orderSchema)) ++ enc)) =
    some msgHashB
  rw [orderEnc_eval]
  show some (keccak256 (keccak256 (asciiBytes (typeSig "Order" orderSchema)) ++ orderEncB)) =
    some msgHashB
  rw [orderTypeHash_eval, msgHashInput_eval]

theorem test1SignableMessage_eval :
    test1SignableMessage = some ⟨[0x01], domSepB, msgHashB⟩ := by
  show encodeTypedData test1DomainSchema test1Domain "Order" orderSchema test1Order =
    some ⟨[0x01], domSepB, msgHashB⟩
  unfold encodeTypedData
  rw [hashStruct_domain_eval, hashStruct_order_eval]

theorem test1Digest_eval : test1Digest = msgHashB := by
  show (test1SignableMessage.map SignableMessage.body).getD [] = msgHashB
  rw [test1SignableMessage_eval]
  rfl

theorem test1EthMessageHash_eval : test1EthMessageHash = ethMsgHashB := by
  show ethMessageHash test1Digest = ethMsgHashB
  rw [test1Digest_eval]
  decide

theorem fullDigest_eval : fullTypedDataDigest domSepB msgHashB = fullDigestB := by decide

/-! Section: Generic helper lemmas -/

theorem hexChars_length (bs : List Nat) :
    (bs.foldr (fun b acc => hexDigitChar (b / 16) :: hexDigitChar (b % 16) :: acc) []).length
      = 2 * bs.length := by
  induction bs with
  | nil => rfl
  | cons b t ih => simp only [List.foldr_cons, List.length_cons, ih]; omega

theorem bytesToHex_length (bs : List Nat) : (bytesToHex bs).length = 2 * bs.length :=
  hexChars_length bs

theorem encodeData_congr (v1 v2 : List (String × EVal)) :
    ∀ schema : List FieldDef,
      (∀ f ∈ schema, lookupVal v1 f.fname = lookupVal v2 f.fname) →
      encodeData schema v1 = encodeData schema v2 := by
  intro schema
  induction schema with
  | nil => intro _; rfl
  | cons f t ih =>
    intro hagree
    have hf := hagree f (List.mem_cons_self f t)
    have ht : ∀ g ∈ t, lookupVal v1 g.fname = lookupVal v2 g.fname :=
      fun g hg => hagree g (List.mem_cons_of_mem f hg)
    show (match lookupVal v1 f.fname, encodeData t v1 with
      | some ev, some rest => (encodeField f.ftype ev).map (· ++ rest)
      | _, _ => none) =
      (match lookupVal v2 f.fname, encodeData t v2 with
      | some ev, some rest => (encodeField f.ftype ev).map (· ++ rest)
      | _, _ => none)
    rw [hf, ih ht]

theorem offsetHash_nofix (l : List Nat) (hl : l.length = 60) : offsetHash l ≠ l.drop 28 := by
  intro h
  have h28 : 28 < l.length := by omega
  rw [List.drop_eq_getElem_cons h28] at h
  unfold offsetHash at h
  injection h with h1 _
  have hgd : l.getD 28 0 = l[28] := by
    rw [List.getD_eq_getElem?_getD, List.getElem?_eq_getElem h28]
    rfl
  rw [hgd] at h1
  omega

theorem mainTrace_none (sr : OrderRec → Except String String) :
    mainTrace none sr = [.quoteStep] := rfl

theorem mainTrace_error (q : QuoteData) (sr : OrderRec → Except String String) (e : String)
    (hs : sr (construct_order q) = .error e) :
    mainTrace (some q) sr = [.quoteStep, .buildStep, .signStep] := by
  show (match sr (construct_order q) with
    | .error _ => [PipelineStep.quoteStep, .buildStep, .signStep]
    | .ok _ => [PipelineStep.quoteStep, .buildStep, .signStep, .submitStep]) =
    [PipelineStep.quoteStep, .buildStep, .signStep]
  rw [hs]

theorem mainTrace_ok (q : QuoteData) (sr : OrderRec → Except String String) (r : String)
    (hs : sr (construct_order q) = .ok r) :
    mainTrace (some q) sr = [.quoteStep, .buildStep, .signStep, .submitStep] := by
  show (match sr (construct_order q) with
    | .error _ => [PipelineStep.quoteStep, .buildStep, .signStep]
    | .ok _ => [PipelineStep.quoteStep, .buildStep, .signStep, .submitStep]) =
    [PipelineStep.quoteStep, .buildStep, .signStep, .submitStep]
  rw [hs]

/-! Section: Claim theorems -/

/-- C1: the value test1.py binds to `digest` is `signable_message.body`, which
is the Order struct hash, and for the pinned inputs it differs from the full
two-byte-prefixed typed-data digest
`hash(0x19 ‖ 0x01 ‖ domainSeparator ‖ messageHash)` (which is what the EIP-191
hash of the `SignableMessage` would have been): the claim fails on the code. -/
theorem digest_is_struct_hash_not_full_digest :
    some test1Digest = hashStruct "Order" orderSchema test1Order ∧
    test1Digest ≠
      fullTypedDataDigest ((test1SignableMessage.map SignableMessage.header).getD [])
        ((test1SignableMessage.map SignableMessage.body).getD []) ∧
    (test1SignableMessage.map eip191MessageHash).getD [] =
      fullTypedDataDigest ((test1SignableMessage.map SignableMessage.header).getD [])
        ((test1SignableMessage.map SignableMessage.body).getD []) := by
  refine ⟨?_, ?_, ?_⟩
  · rw [hashStruct_order_eval, test1Digest_eval]
  · rw [test1Digest_eval, test1SignableMessage_eval]
    decide
  · rw [test1SignableMessage_eval]
    decide

/-- C2: for the pinned test1.py inputs the digest and the ethSign-wrapped
signing value are single fixed byte strings, and for any deterministic 65-byte
signer the produced signature is the same fixed 65-byte value on every run. -/
theorem test1_signature_fixed (signHash : String → List Nat → List Nat)
    (hlen : ∀ k d, (signHash k d).length = 65) :
    test1Digest = msgHashB ∧
    test1Signature signHash = signHash PRIVATE_KEY ethMsgHashB ∧
    test1Signature signHash = test1Signature signHash ∧
    (test1Signature signHash).length = 65 := by
  refine ⟨test1Digest_eval, ?_, rfl, hlen _ _⟩
  show signHash PRIVATE_KEY test1EthMessageHash = signHash PRIVATE_KEY ethMsgHashB
  rw [test1EthMessageHash_eval]

theorem test1_signature_fixed_witness :
    (test1Signature zeroSigner).length = 65 :=
  (test1_signature_fixed zeroSigner (fun _ _ => List.length_replicate 65 0)).2.2.2

/-- C3: for any hash function the ethSign scheme signs `hash(p ‖ d)` where `p`
is exactly the 28 ASCII bytes of `"\x19Ethereum Signed Message:\n32"`; the
(spec-modelled) eip712 scheme signs `d` unchanged; whenever the hash has no
28-byte-shifted fixed point the two signing values differ for every 32-byte
digest, and concretely for keccak at the digest of the program they differ. -/
theorem ethSign_vs_eip712 (hash : List Nat → List Nat)
    (hnofix : ∀ l, l.length = 60 → hash l ≠ l.drop 28)
    (d : List Nat) (hd : d.length = 32) :
    asciiBytes ethSignHeaderStr =
      [0x19, 0x45, 0x74, 0x68, 0x65, 0x72, 0x65, 0x75, 0x6d, 0x20, 0x53, 0x69, 0x67, 0x6e,
       0x65, 0x64, 0x20, 0x4d, 0x65, 0x73, 0x73, 0x61, 0x67, 0x65, 0x3a, 0x0a, 0x33, 0x32] ∧
    ethSignValueWith hash d = hash (asciiBytes ethSignHeaderStr ++ d) ∧
    eip712SigningValue d = d ∧
    ethSignValueWith hash d ≠ eip712SigningValue d ∧
    ethMessageHash test1Digest ≠ test1Digest := by
  refine ⟨by decide, rfl, rfl, ?_, ?_⟩
  · intro heq
    have hlen : (asciiBytes ethSignHeaderStr ++ d).length = 60 := by
      have h28 : (asciiBytes ethSignHeaderStr).length = 28 := by decide
      rw [List.length_append, h28, hd]
    have hdrop : (asciiBytes ethSignHeaderStr ++ d).drop 28 = d :=
      List.drop_left' (by decide)
    exact hnofix (asciiBytes ethSignHeaderStr ++ d) hlen (heq.trans hdrop.symm)
  · rw [test1Digest_eval]
    decide

theorem ethSign_vs_eip712_witness :
    ethSignValueWith offsetHash (List.replicate 32 7) ≠
      eip712SigningValue (List.replicate 32 7) :=
  (ethSign_vs_eip712 offsetHash offsetHash_nofix (List.replicate 32 7) (by decide)).2.2.2.1

/-- C4 counterexample: at a concrete quote the `appData` of the built order is NOT
`"0x"` plus the hash of the canonical no-whitespace JSON encoding of
`{"version":"0.9.0","metadata":{}}`: the code hashes the default spaced
`json.dumps` output and prefixes `"0x"` onto an already-`0x`-prefixed hex
string. -/
theorem appData_not_canonical_hash :
    (construct_order quoteFixture).appData ≠
      "0x" ++ bytesToHex (keccak256 (asciiBytes appDataJsonNoSpace)) := by
  decide

/-- C4 amended: the embedded appData is deterministic but non-canonical: for
every quote it equals `"0x0x"` followed by the hex digits of the keccak hash
of the spaced JSON dump `{"version": "0.9.0", "metadata": {}}` (stable key
order `version`, `metadata`, but a space after each `:` and `,`); an
independent party re-encoding that exact spaced string byte-for-byte obtains
the same hash. -/
theorem appData_spaced_json_hash (q : QuoteData) :
    app_data_json = "\x7b\"version\": \"0.9.0\", \"metadata\": \x7b\x7d\x7d" ∧
    app_data_json ≠ appDataJsonNoSpace ∧
    (construct_order q).appData = "0x0x" ++ bytesToHex (keccak256 (asciiBytes app_data_json)) ∧
    (construct_order q).appData = "0x" ++ app_data_hash := by
  refine ⟨rfl, by decide, ?_, rfl⟩
  show "0x" ++ app_data_hash = "0x0x" ++ bytesToHex (keccak256 (asciiBytes app_data_json))
  decide

/-- C5: the `signature` field of the submitted payload is
`"0x" + HexBytes.hex(sig)` = `"0x0x"` followed by 130 hex digits: its length
is 134, not the claimed 132 with exactly one `0x` prefix. -/
theorem signature_payload_double_0x (sig : List Nat) (hlen : sig.length = 65) :
    submittedSignature sig = "0x0x" ++ bytesToHex sig ∧
    (submittedSignature sig).length = 134 ∧
    (submittedSignature sig).length ≠ 132 := by
  have h1 : submittedSignature sig = "0x0x" ++ bytesToHex sig := by
    show "0x" ++ ("0x" ++ bytesToHex sig) = "0x0x" ++ bytesToHex sig
    rw [← String.append_assoc, show ("0x" ++ "0x" : String) = "0x0x" by decide]
  have h2 : (submittedSignature sig).length = 134 := by
    rw [h1, String.length_append, bytesToHex_length, hlen]
    decide
  exact ⟨h1, h2, by rw [h2]; decide⟩

theorem signature_payload_double_0x_witness :
    (submittedSignature (List.replicate 65 0)).length = 134 :=
  (signature_payload_double_0x (List.replicate 65 0) (List.length_replicate 65 0)).2.1

/-- C6: the schema is authoritative: two value maps that agree on the twelve
Order-schema fields produce identical encodings, struct hashes, and — for any
signer — identical sign_order results, regardless of extra keys (such as the
`from`, `signingScheme`, `appDataHash` keys `construct_order` adds). -/
theorem extra_keys_ignored (v1 v2 : List (String × EVal))
    (hagree : ∀ f ∈ orderSchema, lookupVal v1 f.fname = lookupVal v2 f.fname) :
    encodeData orderSchema v1 = encodeData orderSchema v2 ∧
    hashStruct "Order" orderSchema v1 = hashStruct "Order" orderSchema v2 ∧
    ∀ signHash, sign_order signHash v1 = sign_order signHash v2 := by
  have henc := encodeData_congr v1 v2 orderSchema hagree
  have hhs : hashStruct "Order" orderSchema v1 = hashStruct "Order" orderSchema v2 := by
    unfold hashStruct
    rw [henc]
  refine ⟨henc, hhs, ?_⟩
  intro signHash
  unfold sign_order encodeTypedData
  rw [hhs]

theorem extra_keys_ignored_witness :
    hashStruct "Order" orderSchema test1OrderExtra = hashStruct "Order" orderSchema test1Order :=
  (extra_keys_ignored test1OrderExtra test1Order (by decide)).2.1

/-- C7: the digest computation and the signing step are pure functions of
(schema, domain, message, key): recomputing the signable message twice and
calling the (RFC-6979 deterministic, hence functional) signer twice over the
same hash yields byte-identical results, with 65-byte signatures. -/
theorem signing_deterministic (domSchema msgSchema : List FieldDef)
    (domVal msgVal : List (String × EVal)) (pname : String)
    (signHash : String → List Nat → List Nat)
    (hlen : ∀ k d, (signHash k d).length = 65) (k : String) (h : List Nat) :
    encodeTypedData domSchema domVal pname msgSchema msgVal =
      encodeTypedData domSchema domVal pname msgSchema msgVal ∧
    signHash k h = signHash k h ∧ (signHash k h).length = 65 :=
  ⟨rfl, rfl, hlen k h⟩

theorem signing_deterministic_witness : (zeroSigner "k" []).length = 65 :=
  (signing_deterministic test1DomainSchema orderSchema test1Domain test1Order "Order"
    zeroSigner (fun _ _ => List.length_replicate 65 0) "k" []).2.2

/-- C8 counterexample: at a concrete quote (kind `"sell"`, balances `"erc20"`,
as the Quote Service returns them) the tryTx.py `construct_order` places the
verbatim 4-byte ASCII tag in the `kind` field of the signed order — not the 32-byte
hash of the tag — and likewise copies the balance fields verbatim. -/
theorem kind_copied_verbatim_in_tryTx :
    (construct_order quoteFixture).kind = "sell" ∧
    (asciiBytes (construct_order quoteFixture).kind).length ≠ 32 ∧
    asciiBytes (construct_order quoteFixture).kind ≠ keccak256 (asciiBytes "sell") ∧
    (construct_order quoteFixture).sellTokenBalance = "erc20" ∧
    asciiBytes (construct_order quoteFixture).sellTokenBalance ≠
      keccak256 (asciiBytes "erc20") := by
  refine ⟨rfl, by decide, by decide, rfl, by decide⟩

/-- C8 amended: in test1.py the discriminants are derived by hashing the short
ASCII tags — `kind = keccak("sell")` and both balance fields
`= keccak("erc20")`, with the concrete 32-byte values pinned — while the tryTx.py
`construct_order` copies `kind`, `sellTokenBalance` and `buyTokenBalance`
verbatim from the quote response without hashing. -/
theorem discriminants_hashed_in_test1 (q : QuoteData) :
    lookupVal test1Order "kind" = some (.bytes (keccak256 (asciiBytes "sell"))) ∧
    keccak256 (asciiBytes "sell") =
      hexToBytes "0xf3b277728b3fee749481eb3e0b3b48980dbbab78658fc419025cb16eee346775" ∧
    lookupVal test1Order "sellTokenBalance" = some (.bytes (keccak256 (asciiBytes "erc20"))) ∧
    lookupVal test1Order "buyTokenBalance" = some (.bytes (keccak256 (asciiBytes "erc20"))) ∧
    keccak256 (asciiBytes "erc20") =
      hexToBytes "0x5a28e9363bb942b639270062aa6bb295f434bcdfc42c97267bf003f272060dc9" ∧
    (construct_order q).kind = q.kind ∧
    (construct_order q).sellTokenBalance = q.sellTokenBalance ∧
    (construct_order q).buyTokenBalance = q.buyTokenBalance := by
  refine ⟨by decide, by decide, by decide, by decide, by decide, rfl, rfl, rfl⟩

/-- C9: `main()` attempts quote → build → sign → submit with each step at most
once and no retry: the trace is always a prefix of the four steps in order; a
failed quote leaves only the quote attempt; a signing error aborts before
submission; and a submission implies the quote and the signature both
succeeded. -/
theorem pipeline_single_attempt (qr : Option QuoteData)
    (signResult : OrderRec → Except String String) :
    (∀ s, (mainTrace qr signResult).count s ≤ 1) ∧
    (mainTrace qr signResult = [.quoteStep] ∨
      mainTrace qr signResult = [.quoteStep, .buildStep, .signStep] ∨
      mainTrace qr signResult = [.quoteStep, .buildStep, .signStep, .submitStep]) ∧
    (qr = none → mainTrace qr signResult = [.quoteStep]) ∧
    (∀ q e, qr = some q → signResult (construct_order q) = .error e →
      PipelineStep.submitStep ∉ mainTrace qr signResult) ∧
    (PipelineStep.submitStep ∈ mainTrace qr signResult →
      ∃ q r, qr = some q ∧ signResult (construct_order q) = .ok r) := by
  cases qr with
  | none =>
    rw [mainTrace_none]
    refine ⟨fun s => by cases s <;> decide, Or.inl rfl, fun _ => rfl, ?_, ?_⟩
    · intro q e hq _
      exact Option.noConfusion hq
    · intro hmem
      exact absurd hmem (by decide)
  | some q =>
    cases hs : signResult (construct_order q) with
    | error e =>
      rw [mainTrace_error q signResult e hs]
      refine ⟨fun s => by cases s <;> decide, Or.inr (Or.inl rfl), ?_, ?_, ?_⟩
      · intro hq
        exact Option.noConfusion hq
      · intro _ _ _ _
        decide
      · intro hmem
        exact absurd hmem (by decide)
    | ok r =>
      rw [mainTrace_ok q signResult r hs]
      refine ⟨fun s => by cases s <;> decide, Or.inr (Or.inr rfl), ?_, ?_, ?_⟩
      · intro hq
        exact Option.noConfusion hq
      · intro q2 e hq2 herr
        have hq2e : q2 = q := by
          injection hq2 with h
          exact h.symm
        rw [hq2e] at herr
        rw [hs] at herr
        exact Except.noConfusion herr
      · intro _
        exact ⟨q, r, rfl, hs⟩

theorem pipeline_single_attempt_witness :
    mainTrace none (fun _ => Except.ok "") = [PipelineStep.quoteStep] :=
  (pipeline_single_attempt none (fun _ => Except.ok "")).2.2.1 rfl

/-- C10: for every quote the order record `construct_order` returns holds the
same string in its `appData` and `appDataHash` fields — both are built as
`"0x" ++ app_data_hash` from the hash of the same JSON encoding — so the
application-data value bound into the signed message always equals the one
submitted alongside the order. -/
theorem appData_eq_appDataHash (q : QuoteData) :
    (construct_order q).appData = (construct_order q).appDataHash ∧
    (construct_order q).appData = "0x" ++ app_data_hash ∧
    (construct_order q).appDataHash = "0x" ++ app_data_hash :=
  ⟨rfl, rfl, rfl⟩
